import Mathlib

/-!
Verification of the libiccom core against its specification.

The definitions below are a shallow embedding of the C/C++ sources:
  * `src/src/utils.c`        : `__iccom_channel_verify`
  * `src/src/utils.h`        : channel-area ids
  * `src/include/iccom.h`    : build-time constants, netlink size arithmetic,
                               and the `IccomSocket` C++ wrapper
  * `src/unnamed/part_001`   : the network (TCP) transport backend
                               (`iccom_send_data_nocopy`, `iccom_receive_data_nocopy`)

Byte buffers are modelled as `List Nat` (one element per byte), machine
integers as `Nat`/`Int` with explicit `% 2^w` where C performs modular
arithmetic, and the blocking `read(2)` / `write(2)` system calls as explicit
result parameters (`ReadResult` / `WriteResult`) fed to the functions that
invoke them.
-/

namespace Iccom

/- ------------------------- errno codes (Linux) ------------------------- -/

def E2BIG : Nat := 7
def EAGAIN : Nat := 11
def EFAULT : Nat := 14
def EINVAL : Nat := 22
def ENFILE : Nat := 23
def EPIPE : Nat := 32
def EBADE : Nat := 52

/- ------------------- build-time constants (iccom.h) -------------------- -/

def ICCOM_SOCKET_MAX_MESSAGE_SIZE_BYTES : Nat := 4096

def ICCOM_MIN_CHANNEL : Nat := 0

def ICCOM_MAX_CHANNEL : Nat := 0x7FFF

/-- `iccom_get_max_payload_size()` from include/iccom.h. -/
def iccom_get_max_payload_size : Nat := ICCOM_SOCKET_MAX_MESSAGE_SIZE_BYTES

/- --------------------- channel area ids (utils.h) ---------------------- -/

def ICCOM_CHANNEL_AREA_PRIME : Int := 1

def ICCOM_CHANNEL_AREA_LOOPBACK : Int := 2

def ICCOM_CHANNEL_AREA_ANY : Int := 3

/- ------------------- netlink size macros (linux/netlink.h) ------------- -/

/-- Modulus of `size_t` arithmetic on the 64-bit target. -/
def size_t_width : Nat := 2 ^ 64

/-- Modulus of `unsigned int` / `__u32` arithmetic. -/
def uint_width : Nat := 2 ^ 32

/-- `NLMSG_HDRLEN = NLMSG_ALIGN(sizeof(struct nlmsghdr))`; the header is
`\x7b __u32 nlmsg_len; __u16 nlmsg_type; __u16 nlmsg_flags; __u32 nlmsg_seq;
__u32 nlmsg_pid \x7d`, 16 bytes, already 4-aligned. -/
def NLMSG_HDRLEN : Nat := 16

/-- `NLMSG_ALIGN(len) = ((len)+NLMSG_ALIGNTO-1) & ~(NLMSG_ALIGNTO-1)` with
`NLMSG_ALIGNTO = 4U`.  On the 64-bit target, `len` is a `size_t`, so the sum
wraps mod `2^64`; the mask `~3U` is an `unsigned int` whose value
`0xFFFFFFFC` zero-extends to 64 bits, so the AND truncates the sum to 32 bits
and clears the two low bits, i.e. `x mod 2^32 / 4 * 4`. -/
def NLMSG_ALIGN (len : Nat) : Nat := ((len + 3) % size_t_width) % uint_width / 4 * 4

/-- `NLMSG_LENGTH(len) = (len) + NLMSG_HDRLEN` in `size_t` arithmetic. -/
def NLMSG_LENGTH (len : Nat) : Nat := (len + NLMSG_HDRLEN) % size_t_width

/-- `NLMSG_SPACE(len) = NLMSG_ALIGN(NLMSG_LENGTH(len))`. -/
def NLMSG_SPACE (len : Nat) : Nat := NLMSG_ALIGN (NLMSG_LENGTH len)

/-- `iccom_get_data_payload_offset()` from include/iccom.h:
`(size_t)(NLMSG_LENGTH(0))`. -/
def iccom_get_data_payload_offset : Nat := NLMSG_LENGTH 0

/-- `iccom_get_required_buffer_size(data_size_bytes)` from include/iccom.h:
`NLMSG_SPACE(data_size_bytes)`. -/
def iccom_get_required_buffer_size (data_size_bytes : Nat) : Nat :=
  NLMSG_SPACE data_size_bytes

/- -------------------------- byte-level helpers ------------------------- -/

/-- Byte `i` of buffer `l` (bytes of a C buffer are always < 256; reading
masks accordingly). -/
def byteAt (l : List Nat) (i : Nat) : Nat := l.getD i 0 % 256

/-- Read a native-endian (little-endian target) `__u32` from the first four
bytes of a buffer: this is how `nl_header->nlmsg_len` is fetched. -/
def fromLe32 (l : List Nat) : Nat :=
  byteAt l 0 + 256 * byteAt l 1 + 65536 * byteAt l 2 + 16777216 * byteAt l 3

/-- Store a `__u32` as four native-endian bytes: the effect of
`nl_msg->nlmsg_len = v` on the buffer. -/
def le32 (n : Nat) : List Nat :=
  [n % 256, n / 256 % 256, n / 65536 % 256, n / 16777216 % 256]

/-- Conversion of a nonnegative value to a C `int` (the implicit conversion
applied to `return data_size_bytes;` where the function returns `int`). -/
def toInt32 (n : Nat) : Int :=
  if n % uint_width < 2 ^ 31 then ((n % uint_width : Nat) : Int)
  else ((n % uint_width : Nat) : Int) - 2 ^ 32

/-- `std::vector<char>::resize(n)`: keeps the first `n` elements, appends
value-initialised (zero) elements when growing. -/
def listResize (l : List Nat) (n : Nat) : List Nat :=
  l.take n ++ List.replicate (n - l.length) 0

/- ---------------------- channel validation ----------------------------- -/

/-- `iccom_channel_verify` (include/iccom.h): rejects iff the channel lies
below `ICCOM_MIN_CHANNEL` or above `ICCOM_MAX_CHANNEL + range_size`.
The argument here models a nonnegative `int` channel. -/
def iccom_channel_verify (channel : Nat) : Int :=
  if channel < ICCOM_MIN_CHANNEL ∨
      channel > ICCOM_MAX_CHANNEL + (ICCOM_MAX_CHANNEL - ICCOM_MIN_CHANNEL + 1) then
    -(EINVAL : Int)
  else 0

/-- `__iccom_channel_verify` (src/utils.c), verbatim: note that both range
tests combine their two bound checks with `||` exactly as the source does.
The `comment` parameter only selects a log message and never changes the
returned value. -/
def __iccom_channel_verify (channel : Nat) (area : Int)
    (comment : Option String) : Int :=
  if (channel ≥ ICCOM_MIN_CHANNEL ∨ channel ≤ ICCOM_MAX_CHANNEL) ∧
      (area = ICCOM_CHANNEL_AREA_PRIME ∨ area = ICCOM_CHANNEL_AREA_ANY) then
    0
  else if (channel ≥ ICCOM_MIN_CHANNEL + (ICCOM_MAX_CHANNEL - ICCOM_MIN_CHANNEL + 1) ∨
      channel ≤ ICCOM_MAX_CHANNEL + (ICCOM_MAX_CHANNEL - ICCOM_MIN_CHANNEL + 1)) ∧
      (area = ICCOM_CHANNEL_AREA_LOOPBACK ∨ area = ICCOM_CHANNEL_AREA_ANY) then
    0
  else
    -- both the comment = NULL and the comment != NULL branch return -EINVAL
    match comment with
    | none => -(EINVAL : Int)
    | some _ => -(EINVAL : Int)

/- ---------------- transport backend (src/unnamed/part_001) ------------- -/

/-- Outcome of the blocking `write(sock_fd, buf, buf_size_bytes)` call. -/
inductive WriteResult where
  | werror (errno : Nat)
  | wrote (n : Nat)
deriving DecidableEq, Repr

/-- Outcome of the blocking `read(sock_fd, receive_buffer, buffer_size)`
call: either it fails with an errno, or it deposits `bytes` at the start of
the buffer and returns their count (`bytes = []` is the peer-closed /
interrupted case). -/
inductive ReadResult where
  | rerror (errno : Nat)
  | rdata (bytes : List Nat)
deriving DecidableEq, Repr

/-- Result of `iccom_send_data_nocopy`: the returned `int` and the caller's
buffer after the call (the function writes the netlink header into the
buffer through a cast that discards `const`). -/
structure SendOut where
  ret : Int
  buf : List Nat
deriving DecidableEq, Repr

/-- `iccom_send_data_nocopy` (src/unnamed/part_001, lines 777-829).
Argument checks happen before any buffer mutation; then the first
`sizeof(struct nlmsghdr) = 16` bytes are zeroed, `nlmsg_len` is set to
`data_size_bytes` (a `__u32` store), and the whole buffer is written. -/
def iccom_send_data_nocopy (buf : List Nat) (buf_size_bytes : Nat)
    (data_offset : Nat) (data_size_bytes : Nat) (w : WriteResult) : SendOut :=
  if buf_size_bytes ≠ NLMSG_SPACE data_size_bytes then
    ⟨-(EINVAL : Int), buf⟩
  else if data_offset ≠ NLMSG_LENGTH 0 then
    ⟨-(EINVAL : Int), buf⟩
  else if data_size_bytes > ICCOM_SOCKET_MAX_MESSAGE_SIZE_BYTES then
    ⟨-(E2BIG : Int), buf⟩
  else if data_size_bytes = 0 then
    ⟨-(EINVAL : Int), buf⟩
  else
    -- memset(nl_msg, 0, sizeof(*nl_msg)); nl_msg->nlmsg_len = data_size_bytes;
    let buf1 := le32 (data_size_bytes % uint_width) ++
        List.replicate 12 0 ++ buf.drop NLMSG_HDRLEN
    match w with
    | .werror e => ⟨-(e : Int), buf1⟩
    | .wrote n => if n ≠ buf_size_bytes then ⟨-(EPIPE : Int), buf1⟩ else ⟨0, buf1⟩

/-- Result of `iccom_receive_data_nocopy`: the returned `int`, the receive
buffer contents after the call, and `some v` exactly when the function wrote
`v` through `data_offset__out` (`none` = the caller's variable untouched). -/
structure RecvOut where
  ret : Int
  buffer : List Nat
  data_offset : Option Nat
deriving DecidableEq, Repr

/-- `iccom_receive_data_nocopy` (src/unnamed/part_001, lines 872-923).
`read` deposits its bytes at the start of the buffer; a failed or
zero-length read leaves the buffer as it was.  The `data_offset__out = NULL`
check is omitted: every modelled caller passes a valid pointer. -/
def iccom_receive_data_nocopy (receive_buffer : List Nat) (buffer_size : Nat)
    (r : ReadResult) : RecvOut :=
  if buffer_size ≤ NLMSG_SPACE 0 then
    ⟨-(ENFILE : Int), receive_buffer, none⟩
  else
    match r with
    | .rerror e =>
      -- timeout (EAGAIN) is not an error: 0 is returned
      if e = EAGAIN then ⟨0, receive_buffer, none⟩
      else ⟨-(e : Int), receive_buffer, none⟩
    | .rdata bs =>
      let len := bs.length
      let buf1 := bs ++ receive_buffer.drop len
      if len = 0 then
        -- interrupted before any data / peer closed the TCP socket
        ⟨0, buf1, none⟩
      else if len < NLMSG_HDRLEN then
        ⟨-(EBADE : Int), buf1, none⟩
      else
        let data_size_bytes := fromLe32 bs
        let nl_total_msg_size := NLMSG_SPACE data_size_bytes
        if len ≠ nl_total_msg_size then
          ⟨-(EBADE : Int), buf1, none⟩
        else
          ⟨toInt32 data_size_bytes, buf1, some (NLMSG_LENGTH 0)⟩

/- -------------------- IccomSocket (include/iccom.h) -------------------- -/

/-- State of the C++ `IccomSocket` wrapper class. -/
structure IccomSocket where
  m_sock_fd : Int
  m_channel : Nat
  m_incoming_data : List Nat
  m_outgoing_data : List Nat
  m_outgoing_payload_size : Nat
  m_dbg : Bool
deriving DecidableEq, Repr

namespace IccomSocket

/-- State right after `IccomSocket::IccomSocket(channel)` for a channel
accepted by `iccom_channel_verify`: empty input, output resized to
`NLMSG_SPACE(0)` (16 value-initialised bytes), socket not opened. -/
def init (channel : Nat) : IccomSocket :=
  ⟨-1, channel, [], listResize [] (NLMSG_SPACE 0), 0, false⟩

/-- `IccomSocket::reset_output`: resize the outgoing buffer to
`NLMSG_SPACE(0)` and zero the payload size. -/
def reset_output (s : IccomSocket) : IccomSocket :=
  { s with m_outgoing_data := listResize s.m_outgoing_data (NLMSG_SPACE 0)
         , m_outgoing_payload_size := 0 }

/-- `IccomSocket::reset_input`: resize the incoming buffer to zero. -/
def reset_input (s : IccomSocket) : IccomSocket :=
  { s with m_incoming_data := [] }

/-- `IccomSocket::output_size`. -/
def output_size (s : IccomSocket) : Nat := s.m_outgoing_payload_size

/-- `IccomSocket::output_free_space`. -/
def output_free_space (s : IccomSocket) : Nat :=
  if iccom_get_max_payload_size ≥ s.m_outgoing_payload_size then
    iccom_get_max_payload_size - s.m_outgoing_payload_size
  else 0

/-- `IccomSocket::operator<<(const char ch)`. -/
def appendChar (s : IccomSocket) (ch : Nat) : IccomSocket :=
  if s.m_outgoing_payload_size ≥ iccom_get_max_payload_size then s
  else
    { s with
      m_outgoing_data :=
        listResize (s.m_outgoing_data ++ [ch])
          (NLMSG_SPACE (s.m_outgoing_payload_size + 1))
      , m_outgoing_payload_size := s.m_outgoing_payload_size + 1 }

/-- `IccomSocket::operator<<(const std::vector<char> &data)`.  Note the
source drops the data already when the new total *equals*
`iccom_get_max_payload_size()` (the guard uses `>=`). -/
def appendData (s : IccomSocket) (data : List Nat) : IccomSocket :=
  if s.m_outgoing_payload_size + data.length ≥ iccom_get_max_payload_size then s
  else
    { s with
      m_outgoing_data :=
        listResize (s.m_outgoing_data ++ data)
          (NLMSG_SPACE (s.m_outgoing_payload_size + data.length))
      , m_outgoing_payload_size := s.m_outgoing_payload_size + data.length }

/-- `IccomSocket::input_size`: reads `NLMSG_PAYLOAD(nlmsghdr, 0)
= nlmsg_len - NLMSG_SPACE(0)` from the incoming buffer, an `unsigned`
subtraction mod `2^32`. -/
def input_size (s : IccomSocket) : Nat :=
  if s.m_incoming_data.length ≥ NLMSG_SPACE 0 then
    (fromLe32 s.m_incoming_data + uint_width - NLMSG_SPACE 0) % uint_width
  else 0

/-- `IccomSocket::operator[](idx)`: the byte at `idx + NLMSG_LENGTH(0)` of
the incoming buffer. -/
def opIndex (s : IccomSocket) (idx : Nat) : Nat :=
  s.m_incoming_data.getD (idx + NLMSG_LENGTH 0) 0

/-- `IccomSocket::send(reset_message_on_success)` (include/iccom.h,
lines 573-594), with the outcome of the underlying `write` supplied as
`w`.  Returns the `int` result and the post-call object state. -/
def send (s : IccomSocket) (reset_message_on_success : Bool)
    (w : WriteResult) : Int × IccomSocket :=
  if s.m_outgoing_payload_size = 0 then (0, s)
  else
    let o := iccom_send_data_nocopy s.m_outgoing_data s.m_outgoing_data.length
        (NLMSG_LENGTH 0) s.m_outgoing_payload_size w
    let s1 := { s with m_outgoing_data := o.buf }
    if o.ret < 0 then (o.ret, s1)
    else if reset_message_on_success then (o.ret, s1.reset_output)
    else (o.ret, s1)

/-- `IccomSocket::receive()` (include/iccom.h, lines 607-638), with the
outcome of the underlying `read` supplied as `r`. -/
def receive (s : IccomSocket) (r : ReadResult) : Int × IccomSocket :=
  let buf := listResize s.m_incoming_data (NLMSG_SPACE iccom_get_max_payload_size)
  let out := iccom_receive_data_nocopy buf
      (NLMSG_SPACE iccom_get_max_payload_size) r
  -- int data_offset = 0; untouched unless iccom_receive_data_nocopy writes it
  let data_offset := out.data_offset.getD 0
  if out.ret ≤ 0 then
    (out.ret, { s with m_incoming_data := [] })
  else if data_offset ≠ NLMSG_LENGTH 0 then
    (-(EFAULT : Int), { s with m_incoming_data := [] })
  else
    (out.ret, { s with m_incoming_data := listResize out.buffer (out.ret.toNat + NLMSG_HDRLEN) })

end IccomSocket

/- ---------------- frame produced by the C++ wrapper's send ------------- -/

/-- The outgoing buffer the wrapper hands to `iccom_send_data_nocopy` for a
payload `p`: 16 reserved header bytes, the payload at
`iccom_get_data_payload_offset()`, zero padding up to `NLMSG_SPACE(len)`. -/
def sendBuffer (p : List Nat) : List Nat :=
  List.replicate NLMSG_HDRLEN 0 ++ p ++
    List.replicate (NLMSG_SPACE p.length - NLMSG_LENGTH p.length) 0

/-- `iccom_send_data_nocopy` applied to `sendBuffer p` with a fully
successful write: `.buf` is the frame that went out on the wire. -/
def sendFrame (p : List Nat) : SendOut :=
  iccom_send_data_nocopy (sendBuffer p) (NLMSG_SPACE p.length)
    (NLMSG_LENGTH 0) p.length (.wrote (NLMSG_SPACE p.length))

/- ----------------------- concrete scenario states ---------------------- -/

/-- A socket on channel 100 with one buffered payload byte `7`. -/
def sampleOutSocket : IccomSocket := (IccomSocket.init 100).appendData [7]

/-- The spec's echo example, sender side: open channel 100, append the five
bytes 0x00..0x04 and send them (the transport write succeeds in full). -/
def echoSentSocket : IccomSocket :=
  (((IccomSocket.init 100).appendData [0, 1, 2, 3, 4]).send true
    (.wrote (NLMSG_SPACE 5))).2

/-- The frame that went out on the wire in the echo example (and that the
peer echoes back verbatim). -/
def echoFrame : List Nat := (sendFrame [0, 1, 2, 3, 4]).buf

/-- The spec's echo example, receive side: the peer echoed the transmitted
frame and `receive()` reads it in full. -/
def echoReceive : Int × IccomSocket :=
  echoSentSocket.receive (.rdata echoFrame)

/- --------------------------- helper lemmas ----------------------------- -/

theorem fromLe32_le32_append (n : Nat) (rest : List Nat) :
    fromLe32 (le32 n ++ rest) = n % uint_width := by
  simp only [fromLe32, byteAt, le32, List.cons_append, List.nil_append,
    List.getD_cons_zero, List.getD_cons_succ, uint_width]
  rw [show (65536 : Nat) = 256 * 256 by norm_num,
    ← Nat.div_div_eq_div_mul,
    show (16777216 : Nat) = 256 * 256 * 256 by norm_num,
    ← Nat.div_div_eq_div_mul, ← Nat.div_div_eq_div_mul]
  omega

theorem NLMSG_SPACE_eq (p : Nat) (h : p + 19 < uint_width) :
    NLMSG_SPACE p = (p + 19) / 4 * 4 := by
  simp only [NLMSG_SPACE, NLMSG_ALIGN, NLMSG_LENGTH, NLMSG_HDRLEN,
    size_t_width, uint_width] at *
  omega

theorem listResize_length (l : List Nat) (n : Nat) : (listResize l n).length = n := by
  simp [listResize]
  omega

theorem appendData_noop (s : IccomSocket) (b : List Nat)
    (h : s.m_outgoing_payload_size + b.length ≥ iccom_get_max_payload_size) :
    s.appendData b = s := by
  unfold IccomSocket.appendData
  rw [if_pos h]

theorem send_nocopy_buf (buf : List Nat) (bufsize ds : Nat) (w : WriteResult)
    (hsz : bufsize = NLMSG_SPACE ds) (hds : ds ≠ 0)
    (hmax : ds ≤ ICCOM_SOCKET_MAX_MESSAGE_SIZE_BYTES) :
    (iccom_send_data_nocopy buf bufsize (NLMSG_LENGTH 0) ds w).buf =
      le32 (ds % uint_width) ++ List.replicate 12 0 ++ buf.drop NLMSG_HDRLEN := by
  unfold iccom_send_data_nocopy
  rw [if_neg (by omega), if_neg (by omega), if_neg (by omega), if_neg hds]
  cases w with
  | werror e => rfl
  | wrote n =>
    by_cases hn : n = bufsize
    · simp [hn]
    · simp [hn]

theorem le32_append_replicate_length (x : Nat) :
    (le32 x ++ List.replicate 12 (0 : Nat)).length = 16 := by
  simp [le32]

theorem listResize_eq_take (l : List Nat) (n : Nat) (h : n ≤ l.length) :
    listResize l n = l.take n := by
  unfold listResize
  rw [show n - l.length = 0 from by omega, List.replicate_zero, List.append_nil]

theorem send_nocopy_ret_ok (buf : List Nat) (bufsize ds : Nat)
    (hsz : bufsize = NLMSG_SPACE ds) (hds : ds ≠ 0)
    (hmax : ds ≤ ICCOM_SOCKET_MAX_MESSAGE_SIZE_BYTES) :
    (iccom_send_data_nocopy buf bufsize (NLMSG_LENGTH 0) ds (.wrote bufsize)).ret
      = 0 := by
  unfold iccom_send_data_nocopy
  rw [if_neg (by omega), if_neg (by omega), if_neg (by omega), if_neg hds]
  simp

theorem receive_success (s : IccomSocket) (bs : List Nat)
    (h16 : 16 ≤ bs.length)
    (heq : bs.length = NLMSG_SPACE (fromLe32 bs))
    (hpos : 0 < toInt32 (fromLe32 bs)) :
    s.receive (.rdata bs) = (toInt32 (fromLe32 bs),
      { s with m_incoming_data := (listResize
          (bs ++ (listResize s.m_incoming_data
            (NLMSG_SPACE iccom_get_max_payload_size)).drop bs.length)
          ((toInt32 (fromLe32 bs)).toNat + NLMSG_HDRLEN)) }) := by
  have hb : ¬(NLMSG_SPACE iccom_get_max_payload_size ≤ NLMSG_SPACE 0) := by decide
  have hne0 : ¬(bs.length = 0) := by omega
  have hlt16 : ¬(bs.length < NLMSG_HDRLEN) := by
    simp only [NLMSG_HDRLEN]
    omega
  have hmm' : ¬(bs.length ≠ NLMSG_SPACE (fromLe32 bs)) := fun h => h heq
  have hout : iccom_receive_data_nocopy
      (listResize s.m_incoming_data (NLMSG_SPACE iccom_get_max_payload_size))
      (NLMSG_SPACE iccom_get_max_payload_size) (.rdata bs) =
      ⟨toInt32 (fromLe32 bs),
        bs ++ (listResize s.m_incoming_data
          (NLMSG_SPACE iccom_get_max_payload_size)).drop bs.length,
        some (NLMSG_LENGTH 0)⟩ := by
    simp [iccom_receive_data_nocopy, hb, hne0, hlt16, hmm']
  simp only [IccomSocket.receive, hout]
  rw [if_neg (by omega), if_neg (by simp)]

/- --------------------------- claim theorems ---------------------------- -/

/-- Claim C1 (failing evaluation).  The claim states that
`__iccom_channel_verify(c, area, comment)` succeeds iff `c` lies in the
numeric range of `area`, and in particular that a valid primary channel is
rejected against the Loopback area.  In the code both range tests combine
their bound checks with `||`, which is a tautology over unsigned channels,
so the validator returns success for every channel whenever the area id is
one of Prime, Loopback or Any: channel 100 passes Loopback verification
and channel 131072 (outside both ranges) passes every verification. -/
theorem c1_channel_verify_accepts_every_channel :
    ∀ (c : Nat) (comment : Option String),
      __iccom_channel_verify c ICCOM_CHANNEL_AREA_PRIME comment = 0 ∧
      __iccom_channel_verify c ICCOM_CHANNEL_AREA_LOOPBACK comment = 0 ∧
      __iccom_channel_verify c ICCOM_CHANNEL_AREA_ANY comment = 0 := by
  intro c comment
  unfold __iccom_channel_verify ICCOM_MIN_CHANNEL ICCOM_MAX_CHANNEL
    ICCOM_CHANNEL_AREA_PRIME ICCOM_CHANNEL_AREA_LOOPBACK ICCOM_CHANNEL_AREA_ANY
  refine ⟨?_, ?_, ?_⟩ <;> split_ifs <;> first | rfl | (exfalso; omega)

/-- Claim C2: round-trip.  For every payload `p` with
`0 < len p ≤ iccom_get_max_payload_size()`, the frame that
`iccom_send_data_nocopy` produces for `p` (header carrying the length,
payload at `NLMSG_LENGTH(0)`, zero padding up to `NLMSG_SPACE(len p)`),
when read back in full by `iccom_receive_data_nocopy`, decodes
successfully: the return value is `len p`, the reported data offset is
`NLMSG_LENGTH(0)`, and the bytes at that offset are exactly `p`. -/
theorem c2_encode_decode_roundtrip (p : List Nat) (h1 : 0 < p.length)
    (h2 : p.length ≤ iccom_get_max_payload_size) :
    (sendFrame p).ret = 0 ∧
    (iccom_receive_data_nocopy
        (List.replicate (NLMSG_SPACE iccom_get_max_payload_size) 0)
        (NLMSG_SPACE iccom_get_max_payload_size)
        (.rdata (sendFrame p).buf)).ret = (p.length : Int) ∧
    (iccom_receive_data_nocopy
        (List.replicate (NLMSG_SPACE iccom_get_max_payload_size) 0)
        (NLMSG_SPACE iccom_get_max_payload_size)
        (.rdata (sendFrame p).buf)).data_offset = some (NLMSG_LENGTH 0) ∧
    ((iccom_receive_data_nocopy
        (List.replicate (NLMSG_SPACE iccom_get_max_payload_size) 0)
        (NLMSG_SPACE iccom_get_max_payload_size)
        (.rdata (sendFrame p).buf)).buffer.drop (NLMSG_LENGTH 0)).take p.length =
      p := by
  have hmax' : p.length ≤ ICCOM_SOCKET_MAX_MESSAGE_SIZE_BYTES := by
    simpa [iccom_get_max_payload_size] using h2
  have hsp : NLMSG_SPACE p.length = (p.length + 19) / 4 * 4 :=
    NLMSG_SPACE_eq _ (by
      simp only [uint_width, ICCOM_SOCKET_MAX_MESSAGE_SIZE_BYTES] at *
      omega)
  have hlen16 : NLMSG_LENGTH p.length = p.length + 16 := by
    simp only [NLMSG_LENGTH, NLMSG_HDRLEN, size_t_width,
      ICCOM_SOCKET_MAX_MESSAGE_SIZE_BYTES] at *
    omega
  have hsbl : (sendBuffer p).length = NLMSG_SPACE p.length := by
    simp only [sendBuffer, List.length_append, List.length_replicate,
      NLMSG_HDRLEN, hlen16, hsp] at *
    omega
  have hfb : (sendFrame p).buf = le32 (p.length % uint_width) ++
      List.replicate 12 0 ++ (sendBuffer p).drop NLMSG_HDRLEN := by
    unfold sendFrame
    exact send_nocopy_buf (sendBuffer p) _ _ _ rfl (by omega) hmax'
  have hret0 : (sendFrame p).ret = 0 :=
    send_nocopy_ret_ok (sendBuffer p) _ _ rfl (by omega) hmax'
  have hdropsb : (sendBuffer p).drop NLMSG_HDRLEN =
      p ++ List.replicate (NLMSG_SPACE p.length - NLMSG_LENGTH p.length) 0 := by
    unfold sendBuffer
    rw [List.append_assoc]
    exact List.drop_left' (by simp)
  have hfl : (sendFrame p).buf.length = NLMSG_SPACE p.length := by
    rw [hfb, hdropsb]
    simp only [List.length_append, List.length_replicate, le32, List.length_cons,
      List.length_nil, hlen16, hsp]
    omega
  have hfl32 : fromLe32 (sendFrame p).buf = p.length := by
    rw [hfb, List.append_assoc, fromLe32_le32_append]
    simp only [uint_width, ICCOM_SOCKET_MAX_MESSAGE_SIZE_BYTES] at *
    omega
  have hb : ¬(NLMSG_SPACE iccom_get_max_payload_size ≤ NLMSG_SPACE 0) := by decide
  have hne0 : ¬((sendFrame p).buf.length = 0) := by
    rw [hfl, hsp]
    omega
  have hlt16 : ¬((sendFrame p).buf.length < NLMSG_HDRLEN) := by
    rw [hfl, hsp]
    simp only [NLMSG_HDRLEN]
    omega
  have hmm' : ¬((sendFrame p).buf.length ≠
      NLMSG_SPACE (fromLe32 (sendFrame p).buf)) := by
    rw [hfl32, hfl]
    simp
  have hout : iccom_receive_data_nocopy
      (List.replicate (NLMSG_SPACE iccom_get_max_payload_size) 0)
      (NLMSG_SPACE iccom_get_max_payload_size) (.rdata (sendFrame p).buf) =
      ⟨toInt32 (fromLe32 (sendFrame p).buf),
        (sendFrame p).buf ++ (List.replicate
          (NLMSG_SPACE iccom_get_max_payload_size) 0).drop (sendFrame p).buf.length,
        some (NLMSG_LENGTH 0)⟩ := by
    simp [iccom_receive_data_nocopy, hb, hne0, hlt16, hmm']
  have htoi : toInt32 p.length = (p.length : Int) := by
    unfold toInt32
    rw [if_pos]
    · simp only [uint_width]
      rw [Nat.mod_eq_of_lt (by
        simp only [ICCOM_SOCKET_MAX_MESSAGE_SIZE_BYTES] at *
        omega)]
    · simp only [uint_width, ICCOM_SOCKET_MAX_MESSAGE_SIZE_BYTES] at *
      omega
  refine ⟨hret0, ?_, ?_, ?_⟩
  · rw [hout]
    show toInt32 (fromLe32 (sendFrame p).buf) = (p.length : Int)
    rw [hfl32, htoi]
  · rw [hout]
  · rw [hout]
    show (((sendFrame p).buf ++ (List.replicate
        (NLMSG_SPACE iccom_get_max_payload_size) 0).drop
          (sendFrame p).buf.length).drop (NLMSG_LENGTH 0)).take p.length = p
    rw [hfb, hdropsb, show NLMSG_LENGTH 0 = 16 from by decide, List.append_assoc]
    rw [List.drop_left' (le32_append_replicate_length (p.length % uint_width))]
    rw [List.append_assoc]
    exact List.take_left' rfl

/-- Claim C2 witness: the round-trip at the concrete payload `[10, 20, 30]`. -/
theorem c2_witness :
    0 < ([10, 20, 30] : List Nat).length ∧
    ([10, 20, 30] : List Nat).length ≤ iccom_get_max_payload_size ∧
    (sendFrame [10, 20, 30]).ret = 0 ∧
    (iccom_receive_data_nocopy
        (List.replicate (NLMSG_SPACE iccom_get_max_payload_size) 0)
        (NLMSG_SPACE iccom_get_max_payload_size)
        (.rdata (sendFrame [10, 20, 30]).buf)).ret =
      (([10, 20, 30] : List Nat).length : Int) ∧
    (iccom_receive_data_nocopy
        (List.replicate (NLMSG_SPACE iccom_get_max_payload_size) 0)
        (NLMSG_SPACE iccom_get_max_payload_size)
        (.rdata (sendFrame [10, 20, 30]).buf)).data_offset =
      some (NLMSG_LENGTH 0) ∧
    ((iccom_receive_data_nocopy
        (List.replicate (NLMSG_SPACE iccom_get_max_payload_size) 0)
        (NLMSG_SPACE iccom_get_max_payload_size)
        (.rdata (sendFrame [10, 20, 30]).buf)).buffer.drop
          (NLMSG_LENGTH 0)).take ([10, 20, 30] : List Nat).length =
      [10, 20, 30] := by
  have h := c2_encode_decode_roundtrip [10, 20, 30] (by decide) (by decide)
  exact ⟨by decide, by decide, h.1, h.2.1, h.2.2.1, h.2.2.2⟩

/-- Claim C3 counterexample.  The claim allows the second append as long as
the total stays within `iccom_get_max_payload_size()`, but the source drops
the data already when the total *equals* the maximum (its guard is `>=`):
appending one byte and then 4095 more (total exactly 4096 = max) leaves
`output_size()` at 1, not 4096. -/
theorem c3_counterexample :
    (1 : Nat) + (List.replicate 4095 0).length ≤ iccom_get_max_payload_size ∧
    (((IccomSocket.init 100).appendData [7]).appendData
        (List.replicate 4095 0)).output_size ≠
      1 + (List.replicate 4095 0).length := by
  have hlen : (List.replicate 4095 (0 : Nat)).length = 4095 :=
    List.length_replicate 4095 0
  have hp : ((IccomSocket.init 100).appendData [7]).m_outgoing_payload_size = 1 := by
    decide
  have hnoop := appendData_noop ((IccomSocket.init 100).appendData [7])
    (List.replicate 4095 0) (by rw [hp, hlen]; decide)
  constructor
  · rw [hlen]; decide
  · rw [hnoop, hlen]
    unfold IccomSocket.output_size
    rw [hp]
    decide

/-- Claim C3 amended: after `append(a); append(b)` on a fresh socket,
`output_size()` equals `len a + len b` when that sum is *strictly below*
`iccom_get_max_payload_size()`; when the sum reaches or exceeds the
maximum, the second append is a complete no-op (the whole state, hence the
previously buffered bytes, is unchanged) and `output_size()` stays at
`len a`. -/
theorem c3_amended_append_semantics (c : Nat) (a b : List Nat)
    (h1 : a.length < iccom_get_max_payload_size) :
    (((IccomSocket.init c).appendData a).appendData b).output_size =
      (if a.length + b.length < iccom_get_max_payload_size then
        a.length + b.length else a.length) ∧
    (iccom_get_max_payload_size ≤ a.length + b.length →
      ((IccomSocket.init c).appendData a).appendData b =
        (IccomSocket.init c).appendData a) := by
  have hA : (IccomSocket.init c).appendData a =
      { IccomSocket.init c with
        m_outgoing_data := listResize ((IccomSocket.init c).m_outgoing_data ++ a)
          (NLMSG_SPACE a.length)
        , m_outgoing_payload_size := a.length } := by
    simp only [IccomSocket.appendData, IccomSocket.init, Nat.zero_add]
    rw [if_neg (by omega)]
  constructor
  · rw [hA]
    simp only [IccomSocket.appendData, IccomSocket.output_size]
    by_cases h2 : a.length + b.length ≥ iccom_get_max_payload_size
    · rw [if_pos h2, if_neg (by omega)]
    · rw [if_neg h2, if_pos (by omega)]
  · intro hge
    rw [hA]
    exact appendData_noop _ b hge

/-- Claim C3 witness: the amended statement at `a = [1, 2]`, `b = [3]`. -/
theorem c3_witness :
    (2 : Nat) < iccom_get_max_payload_size ∧
    ((((IccomSocket.init 1).appendData [1, 2]).appendData [3]).output_size =
      if (2 + 1 : Nat) < iccom_get_max_payload_size then 2 + 1 else 2) ∧
    (iccom_get_max_payload_size ≤ (2 + 1 : Nat) →
      ((IccomSocket.init 1).appendData [1, 2]).appendData [3] =
        (IccomSocket.init 1).appendData [1, 2]) := by
  refine ⟨by decide, ?_, ?_⟩
  · exact (c3_amended_append_semantics 1 [1, 2] [3] (by decide)).1
  · exact (c3_amended_append_semantics 1 [1, 2] [3] (by decide)).2

/-- Claim C4 (failing evaluation).  In the spec's echo scenario (channel
100, payload `[0x00, 0x01, 0x02, 0x03, 0x04]` sent, the peer echoes the
frame back), `receive()` does return 5 and `channel[0]` is `0x00`, but
`input_size()` is `(5 - 16) mod 2^32 = 4294967285`, not 5: the class
computes `NLMSG_PAYLOAD = nlmsg_len - NLMSG_SPACE(0)` while this
repository's transport backend stores the bare payload length in
`nlmsg_len`, so the claimed `input_size() = n` consistency fails. -/
theorem c4_receive_input_size_diverges :
    echoReceive.1 = 5 ∧
    echoReceive.2.opIndex 0 = 0 ∧
    echoReceive.2.input_size = 4294967285 ∧
    echoReceive.2.input_size ≠ 5 := by
  have hrec := receive_success echoSentSocket echoFrame (by decide) (by decide)
    (by decide)
  have hlen : echoFrame.length = 24 := by decide
  have hn21 : (toInt32 (fromLe32 echoFrame)).toNat + NLMSG_HDRLEN = 21 := by decide
  have hjunk : ((listResize echoSentSocket.m_incoming_data
      (NLMSG_SPACE iccom_get_max_payload_size)).drop echoFrame.length).length =
      NLMSG_SPACE iccom_get_max_payload_size - echoFrame.length := by
    rw [List.length_drop, listResize_length]
  have hinc : listResize (echoFrame ++ (listResize echoSentSocket.m_incoming_data
      (NLMSG_SPACE iccom_get_max_payload_size)).drop echoFrame.length)
      ((toInt32 (fromLe32 echoFrame)).toNat + NLMSG_HDRLEN) =
      echoFrame.take 21 := by
    rw [hn21]
    rw [listResize_eq_take _ _ (by rw [List.length_append, hjunk, hlen]; decide)]
    exact List.take_append_of_le_length (by rw [hlen]; omega)
  have hrecv : echoReceive = (toInt32 (fromLe32 echoFrame),
      { echoSentSocket with m_incoming_data := echoFrame.take 21 }) := by
    show echoSentSocket.receive (.rdata echoFrame) = _
    rw [hrec, hinc]
  rw [hrecv]
  decide

/-- Claim C5: a frame whose header declares a payload length whose implied
total frame size (`NLMSG_SPACE` of the declared length) differs from the
number of bytes actually read is rejected by `iccom_receive_data_nocopy`
with `-EBADE` (the length-mismatch error), `IccomSocket::receive()`
propagates that error, and afterwards `input_size()` is 0. -/
theorem c5_length_mismatch_rejected (s : IccomSocket) (bs : List Nat)
    (h16 : NLMSG_HDRLEN ≤ bs.length)
    (_hbuf : bs.length ≤ NLMSG_SPACE iccom_get_max_payload_size)
    (hmm : bs.length ≠ NLMSG_SPACE (fromLe32 bs)) :
    (iccom_receive_data_nocopy
        (listResize s.m_incoming_data (NLMSG_SPACE iccom_get_max_payload_size))
        (NLMSG_SPACE iccom_get_max_payload_size) (.rdata bs)).ret = -(EBADE : Int) ∧
    (s.receive (.rdata bs)).1 = -(EBADE : Int) ∧
    (s.receive (.rdata bs)).2.input_size = 0 := by
  have hb : ¬(NLMSG_SPACE iccom_get_max_payload_size ≤ NLMSG_SPACE 0) := by decide
  have h16' : (16 : Nat) ≤ bs.length := by simpa [NLMSG_HDRLEN] using h16
  have hne : ¬(bs.length = 0) := by omega
  have hlt : ¬(bs.length < NLMSG_HDRLEN) := by
    simp only [NLMSG_HDRLEN]
    omega
  have hout : iccom_receive_data_nocopy
      (listResize s.m_incoming_data (NLMSG_SPACE iccom_get_max_payload_size))
      (NLMSG_SPACE iccom_get_max_payload_size) (.rdata bs) =
      ⟨-(EBADE : Int),
        bs ++ (listResize s.m_incoming_data
          (NLMSG_SPACE iccom_get_max_payload_size)).drop bs.length, none⟩ := by
    simp [iccom_receive_data_nocopy, hb, hne, hlt, hmm]
  refine ⟨by rw [hout], ?_, ?_⟩
  · simp only [IccomSocket.receive, hout]
    norm_num [EBADE]
  · have h160 : NLMSG_SPACE 0 = 16 := by decide
    simp only [IccomSocket.receive, hout]
    norm_num [EBADE, IccomSocket.input_size, h160]

/-- Claim C5 witness: 20 zero bytes read from the transport declare payload
length 0 (implied total 16), mismatching the 20 bytes actually read. -/
theorem c5_witness :
    NLMSG_HDRLEN ≤ (List.replicate 20 (0 : Nat)).length ∧
    (List.replicate 20 (0 : Nat)).length ≤ NLMSG_SPACE iccom_get_max_payload_size ∧
    (List.replicate 20 (0 : Nat)).length ≠
      NLMSG_SPACE (fromLe32 (List.replicate 20 (0 : Nat))) ∧
    (iccom_receive_data_nocopy
        (listResize (IccomSocket.init 100).m_incoming_data
          (NLMSG_SPACE iccom_get_max_payload_size))
        (NLMSG_SPACE iccom_get_max_payload_size)
        (.rdata (List.replicate 20 (0 : Nat)))).ret = -(EBADE : Int) ∧
    ((IccomSocket.init 100).receive (.rdata (List.replicate 20 (0 : Nat)))).1 =
      -(EBADE : Int) ∧
    ((IccomSocket.init 100).receive
        (.rdata (List.replicate 20 (0 : Nat)))).2.input_size = 0 := by
  have h := c5_length_mismatch_rejected (IccomSocket.init 100)
    (List.replicate 20 (0 : Nat)) (by decide) (by decide) (by decide)
  exact ⟨by decide, by decide, by decide, h.1, h.2.1, h.2.2⟩

/-- Claim C6: when the underlying read times out (`read` fails with
`EAGAIN`) and likewise when the peer closes the connection (`read` returns
0 bytes), `IccomSocket::receive()` returns 0 rather than an error, the
incoming buffer is cleared, and `input_size()` is 0 afterwards. -/
theorem c6_timeout_and_peer_close (s : IccomSocket) :
    s.receive (.rerror EAGAIN) = (0, s.reset_input) ∧
    s.receive (.rdata []) = (0, s.reset_input) ∧
    (s.receive (.rerror EAGAIN)).2.input_size = 0 ∧
    (s.receive (.rdata [])).2.input_size = 0 := by
  have hb : ¬(NLMSG_SPACE iccom_get_max_payload_size ≤ NLMSG_SPACE 0) := by decide
  have h16 : NLMSG_SPACE 0 = 16 := by decide
  have h1 : s.receive (.rerror EAGAIN) = (0, s.reset_input) := by
    simp [IccomSocket.receive, iccom_receive_data_nocopy, hb, IccomSocket.reset_input]
  have h2 : s.receive (.rdata []) = (0, s.reset_input) := by
    simp [IccomSocket.receive, iccom_receive_data_nocopy, hb, IccomSocket.reset_input]
  have h3 : (s.reset_input).input_size = 0 := by
    simp [IccomSocket.input_size, IccomSocket.reset_input, h16]
  exact ⟨h1, h2, by rw [h1]; exact h3, by rw [h2]; exact h3⟩

/-- Claim C7: when the outgoing payload size is 0, `IccomSocket::send`
returns success (0) and leaves the whole object (both buffers) unchanged;
the result does not depend on the transport write outcome `w`, so no write
is performed. -/
theorem c7_send_empty_noop (s : IccomSocket) (reset : Bool) (w : WriteResult)
    (h : s.output_size = 0) : s.send reset w = (0, s) := by
  simp only [IccomSocket.output_size] at h
  simp [IccomSocket.send, h]

/-- Claim C7 witness: a freshly constructed socket has `output_size() = 0`
and `send` on it is a successful no-op. -/
theorem c7_witness :
    (IccomSocket.init 100).output_size = 0 ∧
    (IccomSocket.init 100).send true (.wrote 0) = (0, IccomSocket.init 100) :=
  ⟨by decide, c7_send_empty_noop (IccomSocket.init 100) true (.wrote 0) (by decide)⟩

/-- Claim C8 counterexample.  The claim says a failed transmit leaves the
outgoing buffer *exactly* as before the call, but `iccom_send_data_nocopy`
writes the netlink header (zero fill plus the length field) into the
caller's buffer before attempting the write: after a failed send of one
buffered byte the buffer's first word holds the length 1 where it held 0. -/
theorem c8_counterexample :
    ((sampleOutSocket).send true (.werror EPIPE)).1 < 0 ∧
    ((sampleOutSocket).send true (.werror EPIPE)).2.m_outgoing_data ≠
      sampleOutSocket.m_outgoing_data := by decide

/-- Claim C8 amended: under the class invariant (buffer length equals
`NLMSG_SPACE` of the payload size, payload within the maximum), a failed
send preserves the payload size, the buffer length, every byte from offset
`NLMSG_HDRLEN` on (the payload and padding; only the 16 header bytes are
rewritten) and the incoming buffer, so a retry transmits the same frame;
a successful send clears the outgoing message when
`reset_message_on_success` is true and keeps the payload intact when it is
false. -/
theorem c8_amended_send_preserves_payload (s : IccomSocket) (reset : Bool)
    (w : WriteResult)
    (hlen : s.m_outgoing_data.length = NLMSG_SPACE s.m_outgoing_payload_size)
    (hmax : s.m_outgoing_payload_size ≤ iccom_get_max_payload_size) :
    ((s.send reset w).1 < 0 →
      (s.send reset w).2.m_outgoing_payload_size = s.m_outgoing_payload_size ∧
      (s.send reset w).2.m_outgoing_data.length = s.m_outgoing_data.length ∧
      (s.send reset w).2.m_outgoing_data.drop NLMSG_HDRLEN =
        s.m_outgoing_data.drop NLMSG_HDRLEN ∧
      (s.send reset w).2.m_incoming_data = s.m_incoming_data) ∧
    (0 ≤ (s.send reset w).1 →
      (reset = true → (s.send reset w).2.m_outgoing_payload_size = 0 ∧
        (s.send reset w).2.m_outgoing_data.length = NLMSG_SPACE 0) ∧
      (reset = false → (s.send reset w).2.m_outgoing_payload_size =
          s.m_outgoing_payload_size ∧
        (s.send reset w).2.m_outgoing_data.drop NLMSG_HDRLEN =
          s.m_outgoing_data.drop NLMSG_HDRLEN)) := by
  by_cases hz : s.m_outgoing_payload_size = 0
  · have hsend : s.send reset w = (0, s) := by
      unfold IccomSocket.send
      rw [if_pos hz]
    rw [hsend]
    refine ⟨by intro h; exact absurd h (by norm_num), ?_⟩
    intro _
    refine ⟨fun _ => ⟨hz, ?_⟩, fun _ => ⟨rfl, rfl⟩⟩
    rw [hlen, hz]
  · have hmax' : s.m_outgoing_payload_size ≤ ICCOM_SOCKET_MAX_MESSAGE_SIZE_BYTES := by
      simpa [iccom_get_max_payload_size] using hmax
    have hspace : NLMSG_SPACE s.m_outgoing_payload_size =
        (s.m_outgoing_payload_size + 19) / 4 * 4 :=
      NLMSG_SPACE_eq _ (by
        simp only [uint_width, ICCOM_SOCKET_MAX_MESSAGE_SIZE_BYTES] at *
        omega)
    have h16le : 16 ≤ s.m_outgoing_data.length := by
      rw [hlen, hspace]; omega
    have hbuf := send_nocopy_buf s.m_outgoing_data s.m_outgoing_data.length
      s.m_outgoing_payload_size w (by rw [hlen]) hz hmax'
    have hdrop : (iccom_send_data_nocopy s.m_outgoing_data s.m_outgoing_data.length
        (NLMSG_LENGTH 0) s.m_outgoing_payload_size w).buf.drop NLMSG_HDRLEN =
        s.m_outgoing_data.drop NLMSG_HDRLEN := by
      rw [hbuf]
      exact List.drop_left' (le32_append_replicate_length _)
    have hblen : (iccom_send_data_nocopy s.m_outgoing_data s.m_outgoing_data.length
        (NLMSG_LENGTH 0) s.m_outgoing_payload_size w).buf.length =
        s.m_outgoing_data.length := by
      rw [hbuf]
      simp only [List.length_append, List.length_replicate, List.length_drop,
        le32, List.length_cons, List.length_nil, NLMSG_HDRLEN]
      omega
    unfold IccomSocket.send
    rw [if_neg hz]
    by_cases hret : (iccom_send_data_nocopy s.m_outgoing_data s.m_outgoing_data.length
        (NLMSG_LENGTH 0) s.m_outgoing_payload_size w).ret < 0
    · rw [if_pos hret]
      exact ⟨fun _ => ⟨rfl, hblen, hdrop, rfl⟩, fun hge => absurd hret (by omega)⟩
    · rw [if_neg hret]
      cases reset with
      | true =>
        rw [if_pos rfl]
        refine ⟨fun hlt => absurd hlt hret, fun _ => ⟨fun _ => ⟨rfl, ?_⟩, ?_⟩⟩
        · exact listResize_length _ _
        · intro hc
          exact absurd hc (by simp)
      | false =>
        rw [if_neg (by simp)]
        exact ⟨fun hlt => absurd hlt hret,
          fun _ => ⟨fun hc => absurd hc (by simp), fun _ => ⟨rfl, hdrop⟩⟩⟩

/-- Claim C8 witness: the amended statement at a socket holding one byte,
with a write that fails with `EPIPE`. -/
theorem c8_witness :
    sampleOutSocket.m_outgoing_data.length =
      NLMSG_SPACE sampleOutSocket.m_outgoing_payload_size ∧
    sampleOutSocket.m_outgoing_payload_size ≤ iccom_get_max_payload_size ∧
    ((sampleOutSocket.send false (.werror EPIPE)).1 < 0 →
      (sampleOutSocket.send false (.werror EPIPE)).2.m_outgoing_payload_size =
        sampleOutSocket.m_outgoing_payload_size ∧
      (sampleOutSocket.send false (.werror EPIPE)).2.m_outgoing_data.length =
        sampleOutSocket.m_outgoing_data.length ∧
      (sampleOutSocket.send false (.werror EPIPE)).2.m_outgoing_data.drop
          NLMSG_HDRLEN =
        sampleOutSocket.m_outgoing_data.drop NLMSG_HDRLEN ∧
      (sampleOutSocket.send false (.werror EPIPE)).2.m_incoming_data =
        sampleOutSocket.m_incoming_data) := by
  refine ⟨by decide, by decide, ?_⟩
  exact (c8_amended_send_preserves_payload sampleOutSocket false (.werror EPIPE)
    (by decide) (by decide)).1

/-- Claim C9 counterexample.  `iccom_get_required_buffer_size` is a `size_t`
computation whose netlink alignment mask `~(4U-1)` zero-extends to 32 bits:
at the payload size `2^32 - 19` the computed frame size wraps to 0, which
is smaller than header plus payload, contradicting the claim's universal
lower bound. -/
theorem c9_counterexample :
    iccom_get_required_buffer_size 4294967277 = 0 ∧
    iccom_get_required_buffer_size 4294967277 <
      iccom_get_data_payload_offset + 4294967277 := by decide

/-- Claim C9 amended: the frame size is a multiple of the 4-byte alignment
unit for every payload size, and it is at least the payload offset (header
size) plus the payload size whenever the alignment arithmetic does not
overflow 32 bits (`p + 19 < 2^32`), which covers every payload up to
`iccom_get_max_payload_size()`. -/
theorem c9_amended_frame_size_bounds (p : Nat) :
    iccom_get_required_buffer_size p % 4 = 0 ∧
    (p + 19 < uint_width →
      iccom_get_data_payload_offset + p ≤ iccom_get_required_buffer_size p) := by
  simp only [iccom_get_required_buffer_size, iccom_get_data_payload_offset,
    NLMSG_SPACE, NLMSG_ALIGN, NLMSG_LENGTH, NLMSG_HDRLEN, size_t_width, uint_width]
  omega

/-- Claim C9 witness: the amended bounds at the maximal payload size 4096. -/
theorem c9_witness :
    iccom_get_required_buffer_size 4096 % 4 = 0 ∧
    iccom_get_data_payload_offset + 4096 ≤ iccom_get_required_buffer_size 4096 :=
  ⟨(c9_amended_frame_size_bounds 4096).1,
    (c9_amended_frame_size_bounds 4096).2 (by decide)⟩

/-- Claim C10 (failing evaluation).  The claim (and the header
documentation) say `data_offset__out` is written only on the success path
that returns a positive payload length, but a well-formed 16-byte frame
declaring payload length 0 reaches the final path: the function returns 0
(not positive) *and* writes `NLMSG_LENGTH(0)` through the pointer. -/
theorem c10_offset_written_on_zero_length_frame :
    (iccom_receive_data_nocopy
        (List.replicate (NLMSG_SPACE iccom_get_max_payload_size) 0)
        (NLMSG_SPACE iccom_get_max_payload_size)
        (.rdata (List.replicate NLMSG_HDRLEN 0))).ret = 0 ∧
    (iccom_receive_data_nocopy
        (List.replicate (NLMSG_SPACE iccom_get_max_payload_size) 0)
        (NLMSG_SPACE iccom_get_max_payload_size)
        (.rdata (List.replicate NLMSG_HDRLEN 0))).data_offset =
      some (NLMSG_LENGTH 0) := by decide

end Iccom
